import Mathlib

/-
Verification development for the Netlify serverless function
`netlify/functions/openai-proxy.js`.

The handler is a single pure-control-flow function over:
  - the inbound HTTP event (method, raw body text),
  - the process environment variable OPENAI_API_KEY,
  - the platform `fetch` call to the fixed OpenAI endpoint.

We embed it shallowly: the environment is an `Option String`, `fetch` is an
explicit oracle `FetchRequest → FetchOutcome`, and the platform JSON
facilities (`JSON.parse`, `JSON.stringify`, `response.json()`) are modelled
by an executable `JsonValue` type with a parser and a serializer.  The
handler returns both its HTTP response and the list of upstream requests it
issued, so that claims about "no upstream call" / "exactly one upstream
call" are expressible.

Platform-model notes (these model the JavaScript runtime, not repository
code): JSON numbers are modelled as integers (fractions and exponents are
out of scope for every claim), and the message text of the SyntaxError
thrown by JSON.parse is modelled by a fixed function of the input.
-/

/-- A JSON value, as produced by the platform JSON.parse. -/
inductive JsonValue where
  | null
  | bool (b : Bool)
  | num (n : Int)
  | str (s : String)
  | arr (elems : List JsonValue)
  | obj (members : List (String × JsonValue))

/-- Decimal digit printer used by the number serializer. -/
def natReprAux : Nat → Nat → String
  | 0, _ => ""
  | fuel + 1, n =>
    if n < 10 then String.singleton (Nat.digitChar n)
    else natReprAux fuel (n / 10) ++ String.singleton (Nat.digitChar (n % 10))

/-- Decimal representation of a natural number. -/
def natRepr (n : Nat) : String := natReprAux (n + 1) n

/-- Decimal representation of an integer (JS number printing for integers). -/
def intRepr : Int → String
  | .ofNat m => natRepr m
  | .negSucc m => "-" ++ natRepr (m + 1)

/-- Hexadecimal digit character (lowercase), for \u escapes. -/
def hexDigitChar (n : Nat) : Char :=
  if n < 10 then Char.ofNat (48 + n) else Char.ofNat (87 + (n % 16))

/-- Four-digit hexadecimal rendering, for \u escapes. -/
def hex4 (n : Nat) : String :=
  String.mk [hexDigitChar (n / 4096 % 16), hexDigitChar (n / 256 % 16),
             hexDigitChar (n / 16 % 16), hexDigitChar (n % 16)]

/-- JSON string-character escaping as performed by JSON.stringify. -/
def escapeChar (c : Char) : String :=
  if c = '"' then "\\\""
  else if c = '\\' then "\\\\"
  else if c = '\n' then "\\n"
  else if c = '\r' then "\\r"
  else if c = '\t' then "\\t"
  else if c.toNat = 8 then "\\b"
  else if c.toNat = 12 then "\\f"
  else if c.toNat < 32 then "\\u" ++ hex4 c.toNat
  else String.singleton c

/-- JSON string literal quoting as performed by JSON.stringify. -/
def quoteString (s : String) : String :=
  "\"" ++ String.join (s.toList.map escapeChar) ++ "\""

mutual

/-- Serialization of a JSON value, modelling JSON.stringify (no spacing). -/
def JsonValue.stringify : JsonValue → String
  | .null => "null"
  | .bool true => "true"
  | .bool false => "false"
  | .num n => intRepr n
  | .str s => quoteString s
  | .arr es => "[" ++ stringifyElems es ++ "]"
  | .obj ms => "\x7b" ++ stringifyMembers ms ++ "\x7d"

/-- Comma-separated serialization of array elements. -/
def stringifyElems : List JsonValue → String
  | [] => ""
  | [v] => v.stringify
  | v :: vs => v.stringify ++ "," ++ stringifyElems vs

/-- Comma-separated serialization of object members. -/
def stringifyMembers : List (String × JsonValue) → String
  | [] => ""
  | [(k, v)] => quoteString k ++ ":" ++ v.stringify
  | (k, v) :: ms => quoteString k ++ ":" ++ v.stringify ++ "," ++ stringifyMembers ms

end

/-- Whitespace skipping used by the JSON parser model. -/
def skipWs : List Char → List Char
  | [] => []
  | c :: cs => if c = ' ' ∨ c = '\t' ∨ c = '\n' ∨ c = '\r' then skipWs cs else c :: cs

/-- Value of a hexadecimal digit character, for \u escapes. -/
def hexDigitVal (c : Char) : Option Nat :=
  if '0' ≤ c ∧ c ≤ '9' then some (c.toNat - 48)
  else if 'a' ≤ c ∧ c ≤ 'f' then some (c.toNat - 87)
  else if 'A' ≤ c ∧ c ≤ 'F' then some (c.toNat - 55)
  else none

/-- Body of a JSON string literal (after the opening quote): collects
characters into the accumulator, resolving escapes, until the closing
quote. -/
def parseStringAux (acc : List Char) : List Char → Option (String × List Char)
  | [] => none
  | c :: cs =>
    if c = '"' then some (String.mk acc.reverse, cs)
    else if c = '\\' then
      match cs with
      | [] => none
      | e :: cs' =>
        if e = '"' then parseStringAux ('"' :: acc) cs'
        else if e = '\\' then parseStringAux ('\\' :: acc) cs'
        else if e = '/' then parseStringAux ('/' :: acc) cs'
        else if e = 'n' then parseStringAux ('\n' :: acc) cs'
        else if e = 't' then parseStringAux ('\t' :: acc) cs'
        else if e = 'r' then parseStringAux ('\r' :: acc) cs'
        else if e = 'b' then parseStringAux (Char.ofNat 8 :: acc) cs'
        else if e = 'f' then parseStringAux (Char.ofNat 12 :: acc) cs'
        else if e = 'u' then
          match cs' with
          | h1 :: h2 :: h3 :: h4 :: rest =>
            match hexDigitVal h1, hexDigitVal h2, hexDigitVal h3, hexDigitVal h4 with
            | some d1, some d2, some d3, some d4 =>
              parseStringAux (Char.ofNat (d1 * 4096 + d2 * 256 + d3 * 16 + d4) :: acc) rest
            | _, _, _, _ => none
          | _ => none
        else none
    else parseStringAux (c :: acc) cs

/-- Consumes a run of decimal digits, accumulating their value. -/
def parseDigits : List Char → Nat → Nat × List Char
  | [], acc => (acc, [])
  | c :: cs, acc =>
    if c.isDigit then parseDigits cs (acc * 10 + (c.toNat - 48)) else (acc, c :: cs)

mutual

/-- Recursive-descent JSON value parser (platform model of JSON.parse),
fuelled to bound nesting depth. -/
def parseValue : Nat → List Char → Option (JsonValue × List Char)
  | 0, _ => none
  | fuel + 1, cs =>
    match skipWs cs with
    | [] => none
    | '"' :: rest =>
      match parseStringAux [] rest with
      | some (s, r) => some (.str s, r)
      | none => none
    | '\x7b' :: rest =>
      match skipWs rest with
      | '\x7d' :: r => some (.obj [], r)
      | cs' =>
        match parseMembers fuel cs' with
        | some (ms, r) => some (.obj ms, r)
        | none => none
    | '[' :: rest =>
      match skipWs rest with
      | ']' :: r => some (.arr [], r)
      | cs' =>
        match parseElems fuel cs' with
        | some (es, r) => some (.arr es, r)
        | none => none
    | 't' :: 'r' :: 'u' :: 'e' :: rest => some (.bool true, rest)
    | 'f' :: 'a' :: 'l' :: 's' :: 'e' :: rest => some (.bool false, rest)
    | 'n' :: 'u' :: 'l' :: 'l' :: rest => some (.null, rest)
    | '-' :: rest =>
      match rest with
      | c :: _ =>
        if c.isDigit then
          let (n, r) := parseDigits rest 0
          some (.num (-(n : Int)), r)
        else none
      | [] => none
    | c :: rest =>
      if c.isDigit then
        let (n, r) := parseDigits (c :: rest) 0
        some (.num (n : Int), r)
      else none

/-- Parses the non-empty member list of a JSON object, up to and including
the closing brace. -/
def parseMembers : Nat → List Char → Option (List (String × JsonValue) × List Char)
  | 0, _ => none
  | fuel + 1, cs =>
    match skipWs cs with
    | '"' :: rest =>
      match parseStringAux [] rest with
      | some (k, r) =>
        (match skipWs r with
         | ':' :: r2 =>
           match parseValue fuel r2 with
           | some (v, r3) =>
             (match skipWs r3 with
              | ',' :: r4 =>
                match parseMembers fuel r4 with
                | some (ms, r5) => some ((k, v) :: ms, r5)
                | none => none
              | '\x7d' :: r4 => some ([(k, v)], r4)
              | _ => none)
           | none => none
         | _ => none)
      | none => none
    | _ => none

/-- Parses the non-empty element list of a JSON array, up to and including
the closing bracket. -/
def parseElems : Nat → List Char → Option (List JsonValue × List Char)
  | 0, _ => none
  | fuel + 1, cs =>
    match parseValue fuel cs with
    | some (v, r) =>
      (match skipWs r with
       | ',' :: r2 =>
         match parseElems fuel r2 with
         | some (es, r3) => some (v :: es, r3)
         | none => none
       | ']' :: r2 => some ([v], r2)
       | _ => none)
    | none => none

end

/-- Platform model of JSON.parse: parses the whole input (allowing
surrounding whitespace), or fails. -/
def jsonParse (s : String) : Option JsonValue :=
  match parseValue (s.length + 1) s.toList with
  | some (v, rest) => if skipWs rest = [] then some v else none
  | none => none

/-- Looks up a member of a JSON object by key (first occurrence). -/
def JsonValue.lookupField : JsonValue → String → Option JsonValue
  | .obj ms, k => (ms.lookup k)
  | _, _ => none

/-- The inbound Netlify event: HTTP method and raw body text
(`event.httpMethod`, `event.body`). -/
structure Event where
  httpMethod : String
  body : String
deriving DecidableEq

/-- The HTTP response object the handler returns
(`\x7b statusCode, body \x7d`). -/
structure HandlerResponse where
  statusCode : Nat
  body : String
deriving DecidableEq

/-- The argument pair of the `fetch` call: the target URL plus the options
object (method, the two headers, and the body). -/
structure FetchRequest where
  url : String
  method : String
  contentType : String
  authorization : String
  body : String
deriving DecidableEq

/-- The platform `Response` object: status, statusText, and the body text
(that `response.text()` yields, and `response.json()` parses). -/
structure FetchResponse where
  status : Nat
  statusText : String
  bodyText : String
deriving DecidableEq

/-- The `response.ok` accessor: status in the range 200–299. -/
def FetchResponse.ok (r : FetchResponse) : Bool :=
  200 ≤ r.status && r.status ≤ 299

/-- Outcome of an awaited `fetch`: either the promise rejects (network
failure, carrying the thrown error's message) or a response arrives. -/
inductive FetchOutcome where
  | networkError (message : String)
  | response (r : FetchResponse)

/-- Result of one handler invocation: the returned response together with
the list of upstream requests issued during the invocation. -/
structure HandlerResult where
  response : HandlerResponse
  upstreamCalls : List FetchRequest

/-- Serialized error envelope `JSON.stringify(\x7b error: msg \x7d)`. -/
def errorBody (msg : String) : String :=
  (JsonValue.obj [("error", JsonValue.str msg)]).stringify

/-- Message of the error thrown when the API key is unset (line 31 of the
source). -/
def apiKeyMissingMessage : String :=
  "OpenAI API key is not set in Netlify environment variables."

/-- Platform model: the message carried by the SyntaxError that JSON.parse
throws on malformed input. -/
def jsonParseErrorMessage (_input : String) : String :=
  "Unexpected token in JSON"

/-- The fixed upstream endpoint (line 35 of the source). -/
def openaiUrl : String := "https://api.openai.com/v1/chat/completions"

/-- The upstream request built on lines 35–44 of the source: POST to the
fixed URL, JSON content type, bearer authorization from the key, body the
re-serialized parsed inbound body. -/
def openaiRequest (apiKey : String) (requestBody : JsonValue) : FetchRequest :=
  { url := openaiUrl
    method := "POST"
    contentType := "application/json"
    authorization := "Bearer " ++ apiKey
    body := requestBody.stringify }

/-- The error envelope returned when the upstream answers with a non-ok
status (lines 50–53 of the source). -/
def upstreamErrorEnvelope (statusText bodyText : String) : JsonValue :=
  JsonValue.obj
    [("error", JsonValue.str ("OpenAI API request failed: " ++ statusText)),
     ("details", JsonValue.str bodyText)]

/-- Shallow embedding of `exports.handler` from
`netlify/functions/openai-proxy.js`.  `env` is `process.env.OPENAI_API_KEY`
(`none` when the variable is unset), `upstream` is the behaviour of the
awaited `fetch` call, `event` is the inbound event (the unused `context`
parameter is omitted).  The JavaScript truthiness test `!apiKey` fails for
both an unset variable and the empty string, so both routes reach the
`throw` on line 31, which the outer catch converts to a 500. -/
def handler (env : Option String) (upstream : FetchRequest → FetchOutcome)
    (event : Event) : HandlerResult :=
  if event.httpMethod ≠ "POST" then
    ⟨⟨405, "Method Not Allowed"⟩, []⟩
  else
    match jsonParse event.body with
    | none => ⟨⟨500, errorBody (jsonParseErrorMessage event.body)⟩, []⟩
    | some requestBody =>
      match env with
      | none => ⟨⟨500, errorBody apiKeyMissingMessage⟩, []⟩
      | some apiKey =>
        if apiKey = "" then ⟨⟨500, errorBody apiKeyMissingMessage⟩, []⟩
        else
          let req := openaiRequest apiKey requestBody
          match upstream req with
          | .networkError msg => ⟨⟨500, errorBody msg⟩, [req]⟩
          | .response res =>
            if !res.ok then
              ⟨⟨res.status, (upstreamErrorEnvelope res.statusText res.bodyText).stringify⟩,
               [req]⟩
            else
              match jsonParse res.bodyText with
              | none => ⟨⟨500, errorBody (jsonParseErrorMessage res.bodyText)⟩, [req]⟩
              | some data => ⟨⟨200, data.stringify⟩, [req]⟩

/-- Concrete POST event used to exercise the handler (the spec's concrete
success scenario). -/
def stubEvent : Event := ⟨"POST", "\x7b\"model\":\"gpt-x\",\"messages\":[]\x7d"⟩

/-- The JSON value of `stubEvent`'s body. -/
def stubBodyVal : JsonValue := .obj [("model", .str "gpt-x"), ("messages", .arr [])]

/-- The upstream JSON body of the spec's concrete success scenario. -/
def stubData : JsonValue := .obj [("id", .str "abc"), ("choices", .arr [])]

/-- A successful upstream response carrying `stubData`. -/
def stubOkResponse : FetchResponse := ⟨200, "OK", stubData.stringify⟩

/-- A stubbed upstream that always answers with `stubOkResponse`. -/
def stubUpstreamOk : FetchRequest → FetchOutcome := fun _ => .response stubOkResponse

/-- A failing upstream response (non-2xx) with a plain-text error body. -/
def stubErrResponse : FetchResponse := ⟨429, "Too Many Requests", "rate limited"⟩

/-- A stubbed upstream that always answers with `stubErrResponse`. -/
def stubUpstreamErr : FetchRequest → FetchOutcome := fun _ => .response stubErrResponse

section ParserSanity

example : jsonParse "null" = some .null := by rfl
example : jsonParse " \x7b \x7d " = some (.obj []) := by rfl
example : jsonParse "\x7b\"a\":[1,true,\"x\"]\x7d"
    = some (.obj [("a", .arr [.num 1, .bool true, .str "x"])]) := by rfl
example : jsonParse "\x7b" = none := by rfl
example : (jsonParse "\x7b\"model\":\"gpt-x\",\"messages\":[]\x7d").map JsonValue.stringify
    = some "\x7b\"model\":\"gpt-x\",\"messages\":[]\x7d" := by rfl
example : jsonParse "-12" = some (.num (-12)) := by rfl
example : jsonParse "\"a\\nb\"" = some (.str "a\nb") := by rfl
example : jsonParse stubEvent.body = some stubBodyVal := by rfl
example : jsonParse stubOkResponse.bodyText = some stubData := by rfl

end ParserSanity



/-- Claim C1: for every POST request whose body parses as JSON, when the API
key is present in the environment and the upstream call returns a success
(2xx) status, the handler returns status 200 and a body that is exactly the
serialization of the upstream's JSON body — the same JSON value, with no
transformation. -/
theorem handler_upstream_success_relays_json
    (env : Option String) (upstream : FetchRequest → FetchOutcome) (event : Event)
    (apiKey : String) (requestBody data : JsonValue) (res : FetchResponse)
    (hm : event.httpMethod = "POST")
    (hp : jsonParse event.body = some requestBody)
    (henv : env = some apiKey) (hkey : apiKey ≠ "")
    (hup : upstream (openaiRequest apiKey requestBody) = FetchOutcome.response res)
    (hok : res.ok = true)
    (hdata : jsonParse res.bodyText = some data) :
    (handler env upstream event).response = ⟨200, data.stringify⟩ := by
  subst henv
  simp [handler, hm, hp, hkey, hup, hok, hdata]

/-- Witness for C1: the spec's concrete success scenario, run end to end. -/
theorem handler_upstream_success_relays_json_witness :
    (handler (some "sk-test") stubUpstreamOk stubEvent).response
      = ⟨200, stubData.stringify⟩ :=
  handler_upstream_success_relays_json (some "sk-test") stubUpstreamOk stubEvent
    "sk-test" stubBodyVal stubData stubOkResponse rfl (by rfl) rfl (by decide)
    rfl (by rfl) (by rfl)

/-- Claim C2: every request whose method is not POST is answered with status
405 and the plain-text body "Method Not Allowed", with no body processing
and no upstream call (the list of issued upstream requests is empty). -/
theorem handler_non_post_rejects
    (env : Option String) (upstream : FetchRequest → FetchOutcome) (event : Event)
    (h : event.httpMethod ≠ "POST") :
    handler env upstream event = ⟨⟨405, "Method Not Allowed"⟩, []⟩ := by
  simp [handler, h]

/-- Witness for C2: a GET request is rejected with 405. -/
theorem handler_non_post_rejects_witness :
    handler (some "sk-test") stubUpstreamOk ⟨"GET", "ignored"⟩
      = ⟨⟨405, "Method Not Allowed"⟩, []⟩ :=
  handler_non_post_rejects (some "sk-test") stubUpstreamOk ⟨"GET", "ignored"⟩ (by decide)

/-- Claim C3: for every POST request, a body that fails JSON parsing yields
status 500 with the error envelope carrying the parse error's message, and a
missing (or empty, hence falsy) API key yields status 500 with the error
envelope carrying the message naming the missing key; in both cases the
body is the serialized object with the single field `error`. -/
theorem handler_parse_failure_or_missing_key_yields_500
    (env : Option String) (upstream : FetchRequest → FetchOutcome) (event : Event)
    (hm : event.httpMethod = "POST") :
    (jsonParse event.body = none →
      (handler env upstream event).response
        = ⟨500, errorBody (jsonParseErrorMessage event.body)⟩) ∧
    (∀ requestBody, jsonParse event.body = some requestBody →
      env = none ∨ env = some "" →
      (handler env upstream event).response = ⟨500, errorBody apiKeyMissingMessage⟩) := by
  constructor
  · intro hp
    simp [handler, hm, hp]
  · intro requestBody hp henv
    rcases henv with h | h <;> subst h <;> simp [handler, hm, hp]

/-- Witness for C3: a malformed body and a missing key both produce the 500
envelope. -/
theorem handler_parse_failure_or_missing_key_yields_500_witness :
    (handler (some "sk-test") stubUpstreamOk ⟨"POST", "\x7b"⟩).response
        = ⟨500, errorBody (jsonParseErrorMessage "\x7b")⟩ ∧
    (handler none stubUpstreamOk stubEvent).response
        = ⟨500, errorBody apiKeyMissingMessage⟩ :=
  ⟨(handler_parse_failure_or_missing_key_yields_500 (some "sk-test") stubUpstreamOk
      ⟨"POST", "\x7b"⟩ rfl).1 (by rfl),
   (handler_parse_failure_or_missing_key_yields_500 none stubUpstreamOk
      stubEvent rfl).2 stubBodyVal (by rfl) (Or.inl rfl)⟩

/-- Claim C8: the handler is deterministic and stateless — two invocations
with the same event, the same environment, and stubbed upstreams that return
identical responses produce structurally identical results.  (The embedding
is a pure function precisely because the source holds no module-level
mutable state.) -/
theorem handler_deterministic
    (env : Option String) (up1 up2 : FetchRequest → FetchOutcome) (event : Event)
    (hsame : ∀ req, up1 req = up2 req) :
    handler env up1 event = handler env up2 event := by
  have h : up1 = up2 := funext hsame
  subst h
  rfl

/-- Witness for C8: two runs of the concrete success scenario coincide. -/
theorem handler_deterministic_witness :
    handler (some "sk-test") stubUpstreamOk stubEvent
      = handler (some "sk-test") stubUpstreamOk stubEvent :=
  handler_deterministic (some "sk-test") stubUpstreamOk stubUpstreamOk stubEvent
    (fun _ => rfl)

/-- Claim C9: an API key set to the empty string is falsy in the JavaScript
guard `if (!apiKey)`, so the handler treats it exactly like an absent key:
same result as with the variable unset, status 500 with the
missing-key envelope, and no upstream call. -/
theorem handler_empty_key_is_missing_key
    (upstream : FetchRequest → FetchOutcome) (event : Event) (requestBody : JsonValue)
    (hm : event.httpMethod = "POST")
    (hp : jsonParse event.body = some requestBody) :
    handler (some "") upstream event = handler none upstream event ∧
    (handler (some "") upstream event).response = ⟨500, errorBody apiKeyMissingMessage⟩ ∧
    (handler (some "") upstream event).upstreamCalls = [] := by
  refine ⟨?_, ?_, ?_⟩ <;> simp [handler, hm, hp]

/-- Witness for C9: the empty-string key on the concrete POST scenario. -/
theorem handler_empty_key_is_missing_key_witness :
    handler (some "") stubUpstreamOk stubEvent = handler none stubUpstreamOk stubEvent ∧
    (handler (some "") stubUpstreamOk stubEvent).response
      = ⟨500, errorBody apiKeyMissingMessage⟩ ∧
    (handler (some "") stubUpstreamOk stubEvent).upstreamCalls = [] :=
  handler_empty_key_is_missing_key stubUpstreamOk stubEvent stubBodyVal rfl (by rfl)

/-- Claim C4: for a POST request with parseable JSON body and a present key,
an upstream response with a non-2xx status is relayed with the upstream's
status code, and the body is the serialized envelope whose `details` field
is the raw upstream body text and whose `error` field is the summary message
built from the upstream statusText. -/
theorem handler_upstream_error_relays_status_and_details
    (env : Option String) (upstream : FetchRequest → FetchOutcome) (event : Event)
    (apiKey : String) (requestBody : JsonValue) (res : FetchResponse)
    (hm : event.httpMethod = "POST")
    (hp : jsonParse event.body = some requestBody)
    (henv : env = some apiKey) (hkey : apiKey ≠ "")
    (hup : upstream (openaiRequest apiKey requestBody) = FetchOutcome.response res)
    (hok : res.ok = false) :
    (handler env upstream event).response.statusCode = res.status ∧
    (handler env upstream event).response.body
      = (upstreamErrorEnvelope res.statusText res.bodyText).stringify ∧
    (upstreamErrorEnvelope res.statusText res.bodyText).lookupField "details"
      = some (.str res.bodyText) ∧
    (upstreamErrorEnvelope res.statusText res.bodyText).lookupField "error"
      = some (.str ("OpenAI API request failed: " ++ res.statusText)) := by
  subst henv
  refine ⟨?_, ?_, ?_, ?_⟩ <;>
    simp [handler, hm, hp, hkey, hup, hok, upstreamErrorEnvelope,
          JsonValue.lookupField, List.lookup]

/-- Witness for C4: a 429 upstream answer with body "rate limited". -/
theorem handler_upstream_error_relays_status_and_details_witness :
    (handler (some "sk-test") stubUpstreamErr stubEvent).response.statusCode = 429 ∧
    (handler (some "sk-test") stubUpstreamErr stubEvent).response.body
      = (upstreamErrorEnvelope "Too Many Requests" "rate limited").stringify ∧
    (upstreamErrorEnvelope "Too Many Requests" "rate limited").lookupField "details"
      = some (.str "rate limited") ∧
    (upstreamErrorEnvelope "Too Many Requests" "rate limited").lookupField "error"
      = some (.str ("OpenAI API request failed: " ++ "Too Many Requests")) :=
  handler_upstream_error_relays_status_and_details (some "sk-test") stubUpstreamErr
    stubEvent "sk-test" stubBodyVal stubErrResponse rfl (by rfl) rfl (by decide)
    rfl (by decide)

/-- Claim C6: for a POST request with parseable JSON body and a present key,
the handler issues exactly one upstream request, whatever the upstream then
does, and that request is a POST to the fixed OpenAI URL with the JSON
content type, the bearer authorization built from the key, and the
re-serialized parsed inbound body. -/
theorem handler_issues_single_upstream_request
    (env : Option String) (upstream : FetchRequest → FetchOutcome) (event : Event)
    (apiKey : String) (requestBody : JsonValue)
    (hm : event.httpMethod = "POST")
    (hp : jsonParse event.body = some requestBody)
    (henv : env = some apiKey) (hkey : apiKey ≠ "") :
    (handler env upstream event).upstreamCalls = [openaiRequest apiKey requestBody] ∧
    (openaiRequest apiKey requestBody).url
      = "https://api.openai.com/v1/chat/completions" ∧
    (openaiRequest apiKey requestBody).method = "POST" ∧
    (openaiRequest apiKey requestBody).contentType = "application/json" ∧
    (openaiRequest apiKey requestBody).authorization = "Bearer " ++ apiKey ∧
    (openaiRequest apiKey requestBody).body = requestBody.stringify := by
  subst henv
  refine ⟨?_, rfl, rfl, rfl, rfl, rfl⟩
  cases hup : upstream (openaiRequest apiKey requestBody) with
  | networkError msg => simp [handler, hm, hp, hkey, hup]
  | response res =>
    by_cases hok : res.ok
    · cases hd : jsonParse res.bodyText <;> simp [handler, hm, hp, hkey, hup, hok, hd]
    · simp [handler, hm, hp, hkey, hup, hok]

/-- Witness for C6: the single upstream request of the concrete success
scenario. -/
theorem handler_issues_single_upstream_request_witness :
    (handler (some "sk-test") stubUpstreamOk stubEvent).upstreamCalls
      = [openaiRequest "sk-test" stubBodyVal] ∧
    (openaiRequest "sk-test" stubBodyVal).url
      = "https://api.openai.com/v1/chat/completions" ∧
    (openaiRequest "sk-test" stubBodyVal).method = "POST" ∧
    (openaiRequest "sk-test" stubBodyVal).contentType = "application/json" ∧
    (openaiRequest "sk-test" stubBodyVal).authorization = "Bearer " ++ "sk-test" ∧
    (openaiRequest "sk-test" stubBodyVal).body = stubBodyVal.stringify :=
  handler_issues_single_upstream_request (some "sk-test") stubUpstreamOk stubEvent
    "sk-test" stubBodyVal rfl (by rfl) rfl (by decide)

/-- Claim C10: the body forwarded upstream is the re-serialization of the
parsed inbound body — the serialization of exactly the JSON value the
inbound text parses to — and re-serialization is not byte-identity: there is
an input text that parses successfully yet differs from the serialization of
its value (whitespace is normalized away). -/
theorem handler_forwards_reserialized_body
    (env : Option String) (upstream : FetchRequest → FetchOutcome) (event : Event)
    (apiKey : String) (requestBody : JsonValue)
    (hm : event.httpMethod = "POST")
    (hp : jsonParse event.body = some requestBody)
    (henv : env = some apiKey) (hkey : apiKey ≠ "") :
    (handler env upstream event).upstreamCalls.map FetchRequest.body
      = [requestBody.stringify] ∧
    ∃ s : String, ∃ v : JsonValue,
      jsonParse s = some v ∧ JsonValue.stringify v ≠ s := by
  subst henv
  constructor
  · have hcalls : (handler (some apiKey) upstream event).upstreamCalls
        = [openaiRequest apiKey requestBody] := by
      cases hup : upstream (openaiRequest apiKey requestBody) with
      | networkError msg => simp [handler, hm, hp, hkey, hup]
      | response res =>
        by_cases hok : res.ok
        · cases hd : jsonParse res.bodyText <;>
            simp [handler, hm, hp, hkey, hup, hok, hd]
        · simp [handler, hm, hp, hkey, hup, hok]
    rw [hcalls]
    simp [openaiRequest]
  · exact ⟨" [1] ", .arr [.num 1], by rfl, by decide⟩

/-- Witness for C10: the concrete success scenario's forwarded body. -/
theorem handler_forwards_reserialized_body_witness :
    (handler (some "sk-test") stubUpstreamOk stubEvent).upstreamCalls.map
        FetchRequest.body = [stubBodyVal.stringify] ∧
    ∃ s : String, ∃ v : JsonValue,
      jsonParse s = some v ∧ JsonValue.stringify v ≠ s :=
  handler_forwards_reserialized_body (some "sk-test") stubUpstreamOk stubEvent
    "sk-test" stubBodyVal rfl (by rfl) rfl (by decide)

theorem string_append_ne_empty_of_left (a b : String) (h : a ≠ "") : a ++ b ≠ "" := by
  intro hab
  apply h
  have hd := congrArg String.data hab
  rw [String.data_append] at hd
  exact String.ext (List.append_eq_nil.mp hd).1

theorem string_singleton_ne_empty (c : Char) : String.singleton c ≠ "" := by
  intro h
  have hd := congrArg String.data h
  simp [String.singleton] at hd

theorem string_append_singleton_ne_empty (a : String) (c : Char) :
    a ++ String.singleton c ≠ "" := by
  intro h
  have hd := congrArg String.data h
  rw [String.data_append] at hd
  simp [String.singleton] at hd

theorem natReprAux_ne_empty (fuel n : Nat) : natReprAux (fuel + 1) n ≠ "" := by
  simp only [natReprAux]
  split
  · exact string_singleton_ne_empty _
  · exact string_append_singleton_ne_empty _ _

theorem natRepr_ne_empty (n : Nat) : natRepr n ≠ "" := natReprAux_ne_empty n n

theorem intRepr_ne_empty (n : Int) : intRepr n ≠ "" := by
  cases n with
  | ofNat m => exact natRepr_ne_empty m
  | negSucc m => exact string_append_ne_empty_of_left "-" _ (by decide)

theorem JsonValue.stringify_ne_empty (v : JsonValue) : v.stringify ≠ "" := by
  cases v with
  | null => decide
  | bool b => cases b <;> decide
  | num n => exact intRepr_ne_empty n
  | str s =>
    show quoteString s ≠ ""
    exact string_append_ne_empty_of_left _ _
      (string_append_ne_empty_of_left "\"" _ (by decide))
  | arr es =>
    show "[" ++ stringifyElems es ++ "]" ≠ ""
    exact string_append_ne_empty_of_left _ _
      (string_append_ne_empty_of_left "[" _ (by decide))
  | obj ms =>
    show "\x7b" ++ stringifyMembers ms ++ "\x7d" ≠ ""
    exact string_append_ne_empty_of_left _ _
      (string_append_ne_empty_of_left "\x7b" _ (by decide))

/-- Claim C5: for every request and every upstream behaviour, the handler's
status code is 200, 405, 500, or the status of a response the upstream
actually produced; a non-POST request gets the plain-text body
"Method Not Allowed", and a POST request always gets a non-empty body that
is the serialization of some JSON value. -/
theorem handler_response_in_contract
    (env : Option String) (upstream : FetchRequest → FetchOutcome) (event : Event) :
    ((handler env upstream event).response.statusCode = 200 ∨
     (handler env upstream event).response.statusCode = 405 ∨
     (handler env upstream event).response.statusCode = 500 ∨
     ∃ req res, upstream req = FetchOutcome.response res ∧
       (handler env upstream event).response.statusCode = res.status) ∧
    (event.httpMethod ≠ "POST" →
      (handler env upstream event).response.body = "Method Not Allowed") ∧
    (event.httpMethod = "POST" →
      ∃ v : JsonValue, (handler env upstream event).response.body = v.stringify ∧
        (handler env upstream event).response.body ≠ "") := by
  by_cases hm : event.httpMethod = "POST"
  · cases hp : jsonParse event.body with
    | none =>
      have hr : handler env upstream event
          = ⟨⟨500, errorBody (jsonParseErrorMessage event.body)⟩, []⟩ := by
        simp [handler, hm, hp]
      rw [hr]
      exact ⟨Or.inr (Or.inr (Or.inl rfl)), fun hne => absurd hm hne,
        fun _ => ⟨JsonValue.obj [("error", JsonValue.str (jsonParseErrorMessage event.body))],
          rfl, JsonValue.stringify_ne_empty _⟩⟩
    | some rb =>
      cases env with
      | none =>
        have hr : handler none upstream event
            = ⟨⟨500, errorBody apiKeyMissingMessage⟩, []⟩ := by
          simp [handler, hm, hp]
        rw [hr]
        exact ⟨Or.inr (Or.inr (Or.inl rfl)), fun hne => absurd hm hne,
          fun _ => ⟨JsonValue.obj [("error", JsonValue.str apiKeyMissingMessage)],
            rfl, JsonValue.stringify_ne_empty _⟩⟩
      | some apiKey =>
        by_cases hk : apiKey = ""
        · subst hk
          have hr : handler (some "") upstream event
              = ⟨⟨500, errorBody apiKeyMissingMessage⟩, []⟩ := by
            simp [handler, hm, hp]
          rw [hr]
          exact ⟨Or.inr (Or.inr (Or.inl rfl)), fun hne => absurd hm hne,
            fun _ => ⟨JsonValue.obj [("error", JsonValue.str apiKeyMissingMessage)],
              rfl, JsonValue.stringify_ne_empty _⟩⟩
        · cases hup : upstream (openaiRequest apiKey rb) with
          | networkError msg =>
            have hr : handler (some apiKey) upstream event
                = ⟨⟨500, errorBody msg⟩, [openaiRequest apiKey rb]⟩ := by
              simp [handler, hm, hp, hk, hup]
            rw [hr]
            exact ⟨Or.inr (Or.inr (Or.inl rfl)), fun hne => absurd hm hne,
              fun _ => ⟨JsonValue.obj [("error", JsonValue.str msg)],
                rfl, JsonValue.stringify_ne_empty _⟩⟩
          | response res =>
            cases hok : res.ok with
            | false =>
              have hr : handler (some apiKey) upstream event
                  = ⟨⟨res.status,
                      (upstreamErrorEnvelope res.statusText res.bodyText).stringify⟩,
                     [openaiRequest apiKey rb]⟩ := by
                simp [handler, hm, hp, hk, hup, hok]
              rw [hr]
              exact ⟨Or.inr (Or.inr (Or.inr ⟨openaiRequest apiKey rb, res, hup, rfl⟩)),
                fun hne => absurd hm hne,
                fun _ => ⟨upstreamErrorEnvelope res.statusText res.bodyText,
                  rfl, JsonValue.stringify_ne_empty _⟩⟩
            | true =>
              cases hd : jsonParse res.bodyText with
              | none =>
                have hr : handler (some apiKey) upstream event
                    = ⟨⟨500, errorBody (jsonParseErrorMessage res.bodyText)⟩,
                       [openaiRequest apiKey rb]⟩ := by
                  simp [handler, hm, hp, hk, hup, hok, hd]
                rw [hr]
                exact ⟨Or.inr (Or.inr (Or.inl rfl)), fun hne => absurd hm hne,
                  fun _ =>
                    ⟨JsonValue.obj
                        [("error", JsonValue.str (jsonParseErrorMessage res.bodyText))],
                      rfl, JsonValue.stringify_ne_empty _⟩⟩
              | some data =>
                have hr : handler (some apiKey) upstream event
                    = ⟨⟨200, data.stringify⟩, [openaiRequest apiKey rb]⟩ := by
                  simp [handler, hm, hp, hk, hup, hok, hd]
                rw [hr]
                exact ⟨Or.inl rfl, fun hne => absurd hm hne,
                  fun _ => ⟨data, rfl, JsonValue.stringify_ne_empty _⟩⟩
  · have hr : handler env upstream event = ⟨⟨405, "Method Not Allowed"⟩, []⟩ := by
      simp [handler, hm]
    rw [hr]
    exact ⟨Or.inr (Or.inl rfl), fun _ => rfl, fun hp => absurd hp hm⟩

/-- Witness for C5: on the concrete success scenario the POST branch of the
contract yields a non-empty serialized JSON body. -/
theorem handler_response_in_contract_witness :
    ∃ v : JsonValue,
      (handler (some "sk-test") stubUpstreamOk stubEvent).response.body = v.stringify ∧
      (handler (some "sk-test") stubUpstreamOk stubEvent).response.body ≠ "" :=
  (handler_response_in_contract (some "sk-test") stubUpstreamOk stubEvent).2.2 rfl

/-- Claim C7: the API key value never influences the response sent back to
the caller — against an upstream whose behaviour does not depend on the
request it receives (in particular not on the Authorization header), any two
present (non-empty) keys produce identical responses.  The key reaches only
the issued upstream request, never the response. -/
theorem handler_response_independent_of_api_key
    (upstream : FetchRequest → FetchOutcome) (event : Event) (k1 k2 : String)
    (h1 : k1 ≠ "") (h2 : k2 ≠ "")
    (hconst : ∀ a b : FetchRequest, upstream a = upstream b) :
    (handler (some k1) upstream event).response
      = (handler (some k2) upstream event).response := by
  by_cases hm : event.httpMethod = "POST"
  · cases hp : jsonParse event.body with
    | none => simp [handler, hm, hp]
    | some rb =>
      have hsame : upstream (openaiRequest k1 rb) = upstream (openaiRequest k2 rb) :=
        hconst _ _
      cases hup : upstream (openaiRequest k2 rb) with
      | networkError msg =>
        have hup1 : upstream (openaiRequest k1 rb) = FetchOutcome.networkError msg :=
          hsame.trans hup
        simp [handler, hm, hp, h1, h2, hup, hup1]
      | response res =>
        have hup1 : upstream (openaiRequest k1 rb) = FetchOutcome.response res :=
          hsame.trans hup
        cases hok : res.ok with
        | false => simp [handler, hm, hp, h1, h2, hup, hup1, hok]
        | true =>
          cases hd : jsonParse res.bodyText <;>
            simp [handler, hm, hp, h1, h2, hup, hup1, hok, hd]
  · simp [handler, hm]

/-- Witness for C7: two distinct concrete keys against the constant stubbed
upstream give the same response. -/
theorem handler_response_independent_of_api_key_witness :
    (handler (some "key-one") stubUpstreamOk stubEvent).response
      = (handler (some "key-two") stubUpstreamOk stubEvent).response :=
  handler_response_independent_of_api_key stubUpstreamOk stubEvent "key-one" "key-two"
    (by decide) (by decide) (fun _ _ => rfl)
